import Mathlib

/-
Verification of the two-bar truss sizing program (OpenMDAO truss optimisation).

The repository contains three script variants:
  - main.py  : class TrussAnalysis with a run_truss_optimization driver,
  - debug.py : class TrussAnalysis wired at module level,
  - test.py  : class Truss wired at module level.
All three compute the same closed-form truss responses; they differ in the
default parameter values they declare and in how the stress-minus-buckling
constraint is wired.  The physics is embedded over the real numbers, with
Python float arithmetic read as exact real arithmetic.
-/

namespace TrussOpt

/-- The scalar inputs of the analysis component.  main.py and test.py declare
all nine (test.py names the last two stress_max and d_max); debug.py declares
only the first seven. -/
structure Inputs where
  H : ℝ
  d : ℝ
  B : ℝ
  t : ℝ
  E : ℝ
  P : ℝ
  rho : ℝ
  stressMax : ℝ
  deflectionMax : ℝ

/-- The four response outputs of the analysis component. -/
structure Outputs where
  cost : ℝ
  stress : ℝ
  buckling : ℝ
  deflection : ℝ

/-- TrussAnalysis.compute from main.py (lines 28-49); debug.py (lines 29-50)
has the same body character for character. -/
noncomputable def TrussAnalysis.compute (inputs : Inputs) : Outputs :=
  let H := inputs.H
  let d := inputs.d
  let B := inputs.B
  let t := inputs.t
  let E := inputs.E
  let P := inputs.P
  let rho := inputs.rho
  let L := Real.sqrt ((B / 2) ^ 2 + H ^ 2)
  let A := Real.pi * d * t
  let IoverA := (d ^ 2 + t ^ 2) / 8
  let stress := P * L / (2 * A * H)
  let deflection := P * L ^ 3 / (2 * E * A * H ^ 2)
  let buckling := Real.pi ^ 2 * E * IoverA / L ^ 2
  let cost := 2 * rho * A * L
  { cost := cost, stress := stress, buckling := buckling, deflection := deflection }

/-- Truss.compute from test.py (lines 32-53): same formulas, computed in the
order stress, buckling, cost, deflection. -/
noncomputable def Truss.compute (inputs : Inputs) : Outputs :=
  let H := inputs.H
  let d := inputs.d
  let B := inputs.B
  let t := inputs.t
  let E := inputs.E
  let P := inputs.P
  let rho := inputs.rho
  let L := Real.sqrt ((B / 2) ^ 2 + H ^ 2)
  let A := Real.pi * d * t
  let IoverA := (d ^ 2 + t ^ 2) / 8
  let stress := (P * L) / (2 * A * H)
  let buckling := Real.pi ^ 2 * E * IoverA / L ^ 2
  let cost := 2 * rho * A * L
  let deflection := P * L ^ 3 / (2 * E * A * H ^ 2)
  { cost := cost, stress := stress, buckling := buckling, deflection := deflection }

/-- The closed-form response equations exactly as the specification states
them in section 4.1. -/
noncomputable def specResponses (i : Inputs) : Outputs :=
  let L := Real.sqrt ((i.B / 2) ^ 2 + i.H ^ 2)
  let A := Real.pi * i.d * i.t
  let IoverA := (i.d ^ 2 + i.t ^ 2) / 8
  { cost := 2 * i.rho * A * L
    stress := i.P * L / (2 * A * i.H)
    buckling := Real.pi ^ 2 * i.E * IoverA / L ^ 2
    deflection := i.P * L ^ 3 / (2 * i.E * A * i.H ^ 2) }

/-- The add_input declarations of TrussAnalysis.setup in main.py (lines 7-17),
as (name, default value) pairs in declaration order. -/
noncomputable def mainDeclaredInputs : List (String × ℝ) :=
  [("H", 30.0), ("d", 3.0), ("B", 60.0), ("t", 0.15), ("E", 30000.0),
   ("P", 66.0), ("rho", 0.3), ("stressMax", 100.0), ("deflectionMax", 0.25)]

/-- The add_input declarations of TrussAnalysis.setup in debug.py (lines 11-18):
debug.py declares no stressMax or deflectionMax input. -/
noncomputable def debugDeclaredInputs : List (String × ℝ) :=
  [("H", 30.0), ("d", 3.0), ("B", 60.0), ("t", 0.15), ("E", 30000.0),
   ("P", 66.0), ("rho", 0.3)]

/-- The add_input declarations of Truss.setup in test.py (lines 13-22):
the load P defaults to 60, and the limit inputs are named stress_max and d_max. -/
noncomputable def testDeclaredInputs : List (String × ℝ) :=
  [("H", 30), ("d", 3), ("B", 60), ("t", 0.15), ("E", 30000),
   ("P", 60), ("rho", 0.3), ("stress_max", 100), ("d_max", 0.25)]

/-- The add_design_var declarations of main.py (lines 71-72), as
(name, lower, upper). -/
noncomputable def mainDesignVars : List (String × ℝ × ℝ) :=
  [("H", 10.0, 30.0), ("d", 1.0, 3.0)]

/-- The add_design_var declarations of debug.py (lines 60-61). -/
noncomputable def debugDesignVars : List (String × ℝ × ℝ) :=
  [("truss.H", 10.0, 30.0), ("truss.d", 1.0, 3.0)]

/-- The add_design_var declarations of test.py (lines 61-62). -/
noncomputable def testDesignVars : List (String × ℝ × ℝ) :=
  [("truss.H", 10, 30), ("truss.d", 1.0, 3.0)]

/-- The starting point of main.py: H and d as set by the IndepVarComp
(lines 57-58), matching the component defaults. -/
noncomputable def mainStart : ℝ × ℝ := (30.0, 3.0)

/-- The starting point of debug.py: set_val on truss.H and truss.d (lines 79-80). -/
noncomputable def debugStart : ℝ × ℝ := (30.0, 3.0)

/-- The starting point of test.py: set_val on truss.H and truss.d (lines 76-77). -/
noncomputable def testStart : ℝ × ℝ := (30.0, 3.0)

/-- The compute body of the StressBucklingConstraint component of main.py
(line 90): stress_minus_buckling = stress - buckling. -/
def StressBucklingConstraint.compute (stress buckling : ℝ) : ℝ := stress - buckling

/-- The output names declared by StressBucklingConstraint.setup in main.py
(line 85). -/
def StressBucklingConstraint.outputNames : List String := ["stress_minus_buckling"]

/-- The output names of the ExecComp added as buckling_constraint in debug.py
(line 71): the expression stress_minus_buckling = stress - buckling defines the
single output stress_minus_buckling. -/
def debugExecCompOutputNames : List String := ["stress_minus_buckling"]

/-- The output names of the ExecComp added as buckling_constraint in test.py
(line 69), the same expression as in debug.py. -/
def testExecCompOutputNames : List String := ["stress_minus_buckling"]

/-- The add_constraint declarations of main.py (lines 78, 93, 96), as
(constrained variable name, upper bound). -/
noncomputable def mainConstraints : List (String × ℝ) :=
  [("stress", 100.0), ("stress_minus_buckling", 0.0), ("deflection", 0.25)]

/-- The add_constraint declarations of debug.py (lines 67, 68, 74). -/
noncomputable def debugConstraints : List (String × ℝ) :=
  [("truss.stress", 100.0), ("truss.deflection", 0.25),
   ("buckling_constraint.stress_minus_buckling", 0.0)]

/-- The add_constraint declarations of test.py (lines 66, 67, 72): the third
constrains buckling_constraint.F. -/
noncomputable def testConstraints : List (String × ℝ) :=
  [("truss.stress", 100), ("truss.deflection", 0.25), ("buckling_constraint.F", 0)]

/-- The Inputs record built from the main.py defaults, used as a concrete
evaluation point. -/
noncomputable def mainDefaultInputs : Inputs :=
  { H := 30.0, d := 3.0, B := 60.0, t := 0.15, E := 30000.0, P := 66.0,
    rho := 0.3, stressMax := 100.0, deflectionMax := 0.25 }

/-- The denominator of the stress division in compute: 2 * A * H with
A = pi * d * t. -/
noncomputable def stressDenom (i : Inputs) : ℝ := 2 * (Real.pi * i.d * i.t) * i.H

/-- The denominator of the deflection division in compute: 2 * E * A * H^2. -/
noncomputable def deflectionDenom (i : Inputs) : ℝ :=
  2 * i.E * (Real.pi * i.d * i.t) * i.H ^ 2

/-- The denominator of the buckling division in compute: L^2 with
L = sqrt((B/2)^2 + H^2). -/
noncomputable def bucklingDenom (i : Inputs) : ℝ :=
  Real.sqrt ((i.B / 2) ^ 2 + i.H ^ 2) ^ 2

/-- The add_output declarations of Truss.setup in test.py (lines 24-27): the
fourth name is the misspelled delfection. -/
def Truss.declaredOutputNames : List String :=
  ["cost", "stress", "buckling", "delfection"]

/-- The output keys assigned by Truss.compute in test.py (lines 50-53). -/
def Truss.assignedOutputKeys : List String :=
  ["stress", "deflection", "buckling", "cost"]

/-- A design vector (H, d), the iterate owned by the optimizer. -/
structure DesignVector where
  H : ℝ
  d : ℝ

/-- Modelled from the spec: the bound projection of section 4.2 step 5 of the
ConstrainedOptimizer, which is not in src/ (the scripts delegate the loop to
the external SLSQP driver and only declare the bounds through add_design_var);
clips a scalar into the interval from lo to hi. -/
noncomputable def clip (lo hi x : ℝ) : ℝ := max lo (min hi x)

/-- Bound projection of a design vector onto the bounds declared by
add_design_var in every variant: H into 10..30 and d into 1..3. -/
noncomputable def clipDesign (v : DesignVector) : DesignVector :=
  { H := clip 10 30 v.H, d := clip 1 3 v.d }

/-- The default starting point H=30, d=3 shared by every variant. -/
noncomputable def startDesign : DesignVector := { H := 30.0, d := 3.0 }

/-- Modelled from the spec: the iterates of the ConstrainedOptimizer loop of
section 4.2, which is not in src/; the SQP step (gradient estimation, QP
subproblem and line search) is abstracted as an arbitrary function, and the
mandatory bound projection is applied after each step. -/
noncomputable def optIterate (step : ℕ → DesignVector → DesignVector) :
    ℕ → DesignVector
  | 0 => startDesign
  | n + 1 => clipDesign (step n (optIterate step n))

/-- The bounds invariant of section 3: H in 10..30 and d in 1..3. -/
def inBounds (v : DesignVector) : Prop :=
  10 ≤ v.H ∧ v.H ≤ 30 ∧ 1 ≤ v.d ∧ v.d ≤ 3

/-- Modelled from the spec: the three termination reasons of section 4.2
step 7 (converged / iteration-limit / stalled). -/
inductive TerminationReason where
  | converged
  | iterationLimit
  | stalled

/-- The result record of section 6 of the spec. -/
structure OptimizationResult where
  H : ℝ
  d : ℝ
  cost : ℝ
  stress : ℝ
  buckling : ℝ
  deflection : ℝ
  feasible : Bool
  iterations : ℕ
  termination_reason : TerminationReason

/-- The responses at a design vector, holding the remaining parameters of the
input record fixed. -/
noncomputable def responsesAt (i : Inputs) (v : DesignVector) : Outputs :=
  TrussAnalysis.compute { i with H := v.H, d := v.d }

/-- Modelled from the spec: the feasibility flag of section 4.2 step 7,
checking the three constraints of section 3 in the form g(x) <= 0. -/
noncomputable def feasibleAt (i : Inputs) (v : DesignVector) : Bool :=
  decide ((responsesAt i v).stress - i.stressMax ≤ 0 ∧
    (responsesAt i v).stress - (responsesAt i v).buckling ≤ 0 ∧
    (responsesAt i v).deflection - i.deflectionMax ≤ 0)

/-- Modelled from the spec: the result record built from the terminal state of
the optimizer (section 4.2 step 7). -/
noncomputable def mkResult (i : Inputs) (v : DesignVector) (k : ℕ)
    (reason : TerminationReason) : OptimizationResult :=
  { H := v.H, d := v.d, cost := (responsesAt i v).cost,
    stress := (responsesAt i v).stress, buckling := (responsesAt i v).buckling,
    deflection := (responsesAt i v).deflection, feasible := feasibleAt i v,
    iterations := k, termination_reason := reason }

/-- Modelled from the spec: the ConstrainedOptimizer loop of section 4.2
(state machine INITIALIZED to ITERATING to a terminal state), which is not in
src/; the SQP step is abstracted as a function and the convergence and stall
tests as predicates, and the loop always ends in one of the three terminal
states, producing the result record. -/
noncomputable def optLoop (step : ℕ → DesignVector → DesignVector)
    (conv stall : DesignVector → Bool) (i : Inputs) :
    ℕ → ℕ → DesignVector → OptimizationResult
  | 0, k, v => mkResult i v k TerminationReason.iterationLimit
  | fuel + 1, k, v =>
    if conv v then mkResult i v k TerminationReason.converged
    else if stall v then mkResult i v k TerminationReason.stalled
    else optLoop step conv stall i fuel (k + 1) (clipDesign (step k v))

/-- Modelled from the spec: a full optimization run from the default start. -/
noncomputable def runOptimization (step : ℕ → DesignVector → DesignVector)
    (conv stall : DesignVector → Bool) (budget : ℕ) (i : Inputs) :
    OptimizationResult :=
  optLoop step conv stall i budget 0 startDesign

end TrussOpt

namespace TrussOpt

/-- Clipping a scalar lands in the interval when the interval is nonempty. -/
theorem clip_mem (lo hi x : ℝ) (h : lo ≤ hi) : lo ≤ clip lo hi x ∧ clip lo hi x ≤ hi :=
  ⟨le_max_left _ _, max_le h (min_le_left _ _)⟩

/-- Every optLoop result is a mkResult record for some terminal state. -/
theorem optLoop_result_shape (step : ℕ → DesignVector → DesignVector)
    (conv stall : DesignVector → Bool) (i : Inputs) :
    ∀ fuel k v, ∃ x n reason,
      optLoop step conv stall i fuel k v = mkResult i x n reason := by
  intro fuel
  induction fuel with
  | zero => exact fun k v => ⟨v, k, TerminationReason.iterationLimit, rfl⟩
  | succ fuel ih =>
    intro k v
    by_cases hc : conv v = true
    · exact ⟨v, k, TerminationReason.converged, by simp [optLoop, hc]⟩
    · by_cases hs : stall v = true
      · exact ⟨v, k, TerminationReason.stalled, by simp [optLoop, hc, hs]⟩
      · obtain ⟨x, n, r, h⟩ := ih (k + 1) (clipDesign (step k v))
        exact ⟨x, n, r, by simp [optLoop, hc, hs]; exact h⟩

/-- C1: for every input, the compute method of every program variant returns
exactly the closed-form responses of the specification: with
L = sqrt((B/2)^2 + H^2), A = pi*d*t, IoverA = (d^2 + t^2)/8 it returns
stress = P*L/(2*A*H), deflection = P*L^3/(2*E*A*H^2),
buckling = pi^2*E*IoverA/L^2 and cost = 2*rho*A*L. -/
theorem claim_C1_compute_matches_spec (i : Inputs) :
    TrussAnalysis.compute i = specResponses i ∧ Truss.compute i = specResponses i := by
  constructor <;> rfl

/-- C2: the three constraints are stress with upper bound 100, the
stress-minus-buckling difference with upper bound 0, and deflection with upper
bound 0.25; main.py constrains the promoted output stress_minus_buckling of
the StressBucklingConstraint component (which computes stress - buckling), and
debug.py constrains buckling_constraint.stress_minus_buckling, the output of
the ExecComp; but test.py constrains buckling_constraint.F, which does not
match any output of its ExecComp, so in the test.py variant the
stress-minus-buckling constraint is NOT placed on the variable holding that
difference. -/
theorem claim_C2_buckling_constraint_wiring :
    mainConstraints = [("stress", 100.0), ("stress_minus_buckling", 0.0), ("deflection", 0.25)] ∧
    "stress_minus_buckling" ∈ StressBucklingConstraint.outputNames ∧
    (∀ s b : ℝ, StressBucklingConstraint.compute s b = s - b) ∧
    debugConstraints = [("truss.stress", 100.0), ("truss.deflection", 0.25),
      ("buckling_constraint.stress_minus_buckling", 0.0)] ∧
    testConstraints = [("truss.stress", 100), ("truss.deflection", 0.25),
      ("buckling_constraint.F", 0)] ∧
    (∀ out ∈ testExecCompOutputNames, "buckling_constraint.F" ≠ "buckling_constraint." ++ out) := by
  refine ⟨rfl, by decide, fun s b => rfl, rfl, rfl, ?_⟩
  intro out hout
  simp only [testExecCompOutputNames, List.mem_singleton] at hout
  subst hout
  decide

/-- C3 counterexample: in the test.py variant the declared default for the
load P is 60, not 66; and debug.py declares no stressMax input at all. -/
theorem claim_C3_counterexample :
    testDeclaredInputs.lookup "P" = some 60 ∧ some (60 : ℝ) ≠ some (66 : ℝ) ∧
    debugDeclaredInputs.lookup "stressMax" = none ∧
    debugDeclaredInputs.map Prod.fst = ["H", "d", "B", "t", "E", "P", "rho"] := by
  refine ⟨rfl, by norm_num, rfl, rfl⟩

/-- C3 amended: the defaults B=60.0, t=0.15, E=30000.0, rho=0.3 hold in every
variant, P defaults to 66.0 in main.py and debug.py but to 60 in test.py,
stressMax=100.0 and deflectionMax=0.25 are declared in main.py (test.py
declares them as stress_max and d_max; debug.py does not declare them); the
design-variable bounds H in 10..30 and d in 1..3 and the starting point
H=30, d=3 hold in every variant. -/
theorem claim_C3_amended_defaults :
    mainDeclaredInputs.lookup "B" = some 60.0 ∧
    mainDeclaredInputs.lookup "t" = some 0.15 ∧
    mainDeclaredInputs.lookup "E" = some 30000.0 ∧
    mainDeclaredInputs.lookup "P" = some 66.0 ∧
    mainDeclaredInputs.lookup "rho" = some 0.3 ∧
    mainDeclaredInputs.lookup "stressMax" = some 100.0 ∧
    mainDeclaredInputs.lookup "deflectionMax" = some 0.25 ∧
    debugDeclaredInputs.lookup "B" = some 60.0 ∧
    debugDeclaredInputs.lookup "t" = some 0.15 ∧
    debugDeclaredInputs.lookup "E" = some 30000.0 ∧
    debugDeclaredInputs.lookup "P" = some 66.0 ∧
    debugDeclaredInputs.lookup "rho" = some 0.3 ∧
    testDeclaredInputs.lookup "B" = some 60 ∧
    testDeclaredInputs.lookup "t" = some 0.15 ∧
    testDeclaredInputs.lookup "E" = some 30000 ∧
    testDeclaredInputs.lookup "P" = some 60 ∧
    testDeclaredInputs.lookup "rho" = some 0.3 ∧
    testDeclaredInputs.lookup "stress_max" = some 100 ∧
    testDeclaredInputs.lookup "d_max" = some 0.25 ∧
    mainDesignVars = [("H", 10.0, 30.0), ("d", 1.0, 3.0)] ∧
    debugDesignVars = [("truss.H", 10.0, 30.0), ("truss.d", 1.0, 3.0)] ∧
    testDesignVars = [("truss.H", 10, 30), ("truss.d", 1.0, 3.0)] ∧
    mainStart = (30.0, 3.0) ∧ debugStart = (30.0, 3.0) ∧ testStart = (30.0, 3.0) := by
  refine ⟨rfl, rfl, rfl, rfl, rfl, rfl, rfl, rfl, rfl, rfl, rfl, rfl, rfl, rfl,
    rfl, rfl, rfl, rfl, rfl, rfl, rfl, rfl, rfl, rfl, rfl⟩

/-- C4: for positive H, d, t, B and positive fixed parameters E, P, rho, the
physics model returns strictly positive cost, stress and buckling and
non-negative deflection (every value of the real-number embedding is finite). -/
theorem claim_C4_positive_responses (i : Inputs) (hH : 0 < i.H) (hd : 0 < i.d)
    (ht : 0 < i.t) (hB : 0 < i.B) (hE : 0 < i.E) (hP : 0 < i.P) (hrho : 0 < i.rho) :
    0 < (TrussAnalysis.compute i).cost ∧ 0 < (TrussAnalysis.compute i).stress ∧
    0 < (TrussAnalysis.compute i).buckling ∧ 0 ≤ (TrussAnalysis.compute i).deflection := by
  have hL : 0 < Real.sqrt ((i.B / 2) ^ 2 + i.H ^ 2) := Real.sqrt_pos.mpr (by positivity)
  have hA : 0 < Real.pi * i.d * i.t := by positivity
  refine ⟨?_, ?_, ?_, le_of_lt ?_⟩
  · show 0 < 2 * i.rho * (Real.pi * i.d * i.t) * Real.sqrt ((i.B / 2) ^ 2 + i.H ^ 2)
    positivity
  · show 0 < i.P * Real.sqrt ((i.B / 2) ^ 2 + i.H ^ 2) /
      (2 * (Real.pi * i.d * i.t) * i.H)
    positivity
  · show 0 < Real.pi ^ 2 * i.E * ((i.d ^ 2 + i.t ^ 2) / 8) /
      Real.sqrt ((i.B / 2) ^ 2 + i.H ^ 2) ^ 2
    positivity
  · show 0 < i.P * Real.sqrt ((i.B / 2) ^ 2 + i.H ^ 2) ^ 3 /
      (2 * i.E * (Real.pi * i.d * i.t) * i.H ^ 2)
    positivity

/-- C4 witness: the theorem applied at the main.py default inputs. -/
theorem claim_C4_witness :
    0 < (TrussAnalysis.compute mainDefaultInputs).cost ∧
    0 < (TrussAnalysis.compute mainDefaultInputs).stress ∧
    0 < (TrussAnalysis.compute mainDefaultInputs).buckling ∧
    0 ≤ (TrussAnalysis.compute mainDefaultInputs).deflection :=
  claim_C4_positive_responses mainDefaultInputs (by norm_num [mainDefaultInputs])
    (by norm_num [mainDefaultInputs]) (by norm_num [mainDefaultInputs])
    (by norm_num [mainDefaultInputs]) (by norm_num [mainDefaultInputs])
    (by norm_num [mainDefaultInputs]) (by norm_num [mainDefaultInputs])

/-- C5: for every input, doubling rho exactly doubles cost, and doubling P
exactly doubles stress and deflection, leaves buckling unchanged, and turns the
stress-minus-buckling gap into twice the stress minus the unchanged buckling. -/
theorem claim_C5_scaling (i : Inputs) :
    (TrussAnalysis.compute { i with rho := 2 * i.rho }).cost
      = 2 * (TrussAnalysis.compute i).cost ∧
    (TrussAnalysis.compute { i with P := 2 * i.P }).stress
      = 2 * (TrussAnalysis.compute i).stress ∧
    (TrussAnalysis.compute { i with P := 2 * i.P }).deflection
      = 2 * (TrussAnalysis.compute i).deflection ∧
    (TrussAnalysis.compute { i with P := 2 * i.P }).buckling
      = (TrussAnalysis.compute i).buckling ∧
    (TrussAnalysis.compute { i with P := 2 * i.P }).stress
        - (TrussAnalysis.compute { i with P := 2 * i.P }).buckling
      = 2 * (TrussAnalysis.compute i).stress - (TrussAnalysis.compute i).buckling := by
  refine ⟨?_, ?_, ?_, rfl, ?_⟩
  · show 2 * (2 * i.rho) * (Real.pi * i.d * i.t) * Real.sqrt ((i.B / 2) ^ 2 + i.H ^ 2)
      = 2 * (2 * i.rho * (Real.pi * i.d * i.t) * Real.sqrt ((i.B / 2) ^ 2 + i.H ^ 2))
    ring
  · show 2 * i.P * Real.sqrt ((i.B / 2) ^ 2 + i.H ^ 2) / (2 * (Real.pi * i.d * i.t) * i.H)
      = 2 * (i.P * Real.sqrt ((i.B / 2) ^ 2 + i.H ^ 2) / (2 * (Real.pi * i.d * i.t) * i.H))
    ring
  · show 2 * i.P * Real.sqrt ((i.B / 2) ^ 2 + i.H ^ 2) ^ 3 /
        (2 * i.E * (Real.pi * i.d * i.t) * i.H ^ 2)
      = 2 * (i.P * Real.sqrt ((i.B / 2) ^ 2 + i.H ^ 2) ^ 3 /
        (2 * i.E * (Real.pi * i.d * i.t) * i.H ^ 2))
    ring
  · show 2 * i.P * Real.sqrt ((i.B / 2) ^ 2 + i.H ^ 2) / (2 * (Real.pi * i.d * i.t) * i.H)
        - Real.pi ^ 2 * i.E * ((i.d ^ 2 + i.t ^ 2) / 8) /
          Real.sqrt ((i.B / 2) ^ 2 + i.H ^ 2) ^ 2
      = 2 * (i.P * Real.sqrt ((i.B / 2) ^ 2 + i.H ^ 2) / (2 * (Real.pi * i.d * i.t) * i.H))
        - Real.pi ^ 2 * i.E * ((i.d ^ 2 + i.t ^ 2) / 8) /
          Real.sqrt ((i.B / 2) ^ 2 + i.H ^ 2) ^ 2
    ring

/-- C6: the three divisions of compute are exactly the ones with denominators
2*A*H, 2*E*A*H^2 and L^2 (stated by exhibiting each response as numerator over
that denominator), and, with the fixed parameter E nonzero, all three
denominators are nonzero exactly when H, d and t are all nonzero; the
embedding is a total pure function, so no input raises an error. -/
theorem claim_C6_partial_operations (i : Inputs) (hE : i.E ≠ 0) :
    (TrussAnalysis.compute i).stress
      = i.P * Real.sqrt ((i.B / 2) ^ 2 + i.H ^ 2) / stressDenom i ∧
    (TrussAnalysis.compute i).deflection
      = i.P * Real.sqrt ((i.B / 2) ^ 2 + i.H ^ 2) ^ 3 / deflectionDenom i ∧
    (TrussAnalysis.compute i).buckling
      = Real.pi ^ 2 * i.E * ((i.d ^ 2 + i.t ^ 2) / 8) / bucklingDenom i ∧
    ((stressDenom i ≠ 0 ∧ deflectionDenom i ≠ 0 ∧ bucklingDenom i ≠ 0) ↔
      (i.H ≠ 0 ∧ i.d ≠ 0 ∧ i.t ≠ 0)) := by
  refine ⟨rfl, rfl, rfl, ?_, ?_⟩
  · rintro ⟨h1, -, -⟩
    refine ⟨fun h0 => h1 ?_, fun h0 => h1 ?_, fun h0 => h1 ?_⟩ <;>
      simp [stressDenom, h0]
  · rintro ⟨hH, hd, ht⟩
    have hH2 : (0 : ℝ) < i.H ^ 2 :=
      Ne.lt_of_le (Ne.symm (pow_ne_zero 2 hH)) (sq_nonneg i.H)
    refine ⟨?_, ?_, ?_⟩
    · exact mul_ne_zero (mul_ne_zero two_ne_zero
        (mul_ne_zero (mul_ne_zero Real.pi_ne_zero hd) ht)) hH
    · exact mul_ne_zero (mul_ne_zero (mul_ne_zero two_ne_zero hE)
        (mul_ne_zero (mul_ne_zero Real.pi_ne_zero hd) ht)) (pow_ne_zero 2 hH)
    · exact pow_ne_zero 2 (ne_of_gt (Real.sqrt_pos.mpr
        (add_pos_of_nonneg_of_pos (sq_nonneg _) hH2)))

/-- C6 witness: the theorem applied at the main.py default inputs. -/
theorem claim_C6_witness :
    (TrussAnalysis.compute mainDefaultInputs).stress
      = mainDefaultInputs.P *
          Real.sqrt ((mainDefaultInputs.B / 2) ^ 2 + mainDefaultInputs.H ^ 2) /
          stressDenom mainDefaultInputs ∧
    (TrussAnalysis.compute mainDefaultInputs).deflection
      = mainDefaultInputs.P *
          Real.sqrt ((mainDefaultInputs.B / 2) ^ 2 + mainDefaultInputs.H ^ 2) ^ 3 /
          deflectionDenom mainDefaultInputs ∧
    (TrussAnalysis.compute mainDefaultInputs).buckling
      = Real.pi ^ 2 * mainDefaultInputs.E *
          ((mainDefaultInputs.d ^ 2 + mainDefaultInputs.t ^ 2) / 8) /
          bucklingDenom mainDefaultInputs ∧
    ((stressDenom mainDefaultInputs ≠ 0 ∧ deflectionDenom mainDefaultInputs ≠ 0 ∧
        bucklingDenom mainDefaultInputs ≠ 0) ↔
      (mainDefaultInputs.H ≠ 0 ∧ mainDefaultInputs.d ≠ 0 ∧ mainDefaultInputs.t ≠ 0)) :=
  claim_C6_partial_operations mainDefaultInputs (by norm_num [mainDefaultInputs])

/-- C7: for every choice of SQP step function and every iteration count, the
design vector stays within bounds: the initial point H=30, d=3 satisfies H in
10..30 and d in 1..3, and so does every post-step clipped iterate, hence also
the returned iterate. -/
theorem claim_C7_bounds_invariant (step : ℕ → DesignVector → DesignVector)
    (n : ℕ) : inBounds (optIterate step n) := by
  induction n with
  | zero =>
    refine ⟨?_, ?_, ?_, ?_⟩ <;> · show _ ≤ _; norm_num [optIterate, startDesign]
  | succ n ih =>
    have hH := clip_mem 10 30 (step n (optIterate step n)).H (by norm_num)
    have hd := clip_mem 1 3 (step n (optIterate step n)).d (by norm_num)
    exact ⟨hH.1, hH.2, hd.1, hd.2⟩

/-- C8: every optimization run returns a result record whose
termination_reason is one of converged, iteration-limit or stalled, whose
feasible field is a boolean, and whose response fields are the physics-model
responses at the returned design variables. -/
theorem claim_C8_result_record (step : ℕ → DesignVector → DesignVector)
    (conv stall : DesignVector → Bool) (budget : ℕ) (i : Inputs) :
    ((runOptimization step conv stall budget i).termination_reason
        = TerminationReason.converged ∨
      (runOptimization step conv stall budget i).termination_reason
        = TerminationReason.iterationLimit ∨
      (runOptimization step conv stall budget i).termination_reason
        = TerminationReason.stalled) ∧
    ((runOptimization step conv stall budget i).feasible = true ∨
      (runOptimization step conv stall budget i).feasible = false) ∧
    (runOptimization step conv stall budget i).cost
      = (responsesAt i
          (DesignVector.mk (runOptimization step conv stall budget i).H
            (runOptimization step conv stall budget i).d)).cost ∧
    (runOptimization step conv stall budget i).stress
      = (responsesAt i
          (DesignVector.mk (runOptimization step conv stall budget i).H
            (runOptimization step conv stall budget i).d)).stress ∧
    (runOptimization step conv stall budget i).buckling
      = (responsesAt i
          (DesignVector.mk (runOptimization step conv stall budget i).H
            (runOptimization step conv stall budget i).d)).buckling ∧
    (runOptimization step conv stall budget i).deflection
      = (responsesAt i
          (DesignVector.mk (runOptimization step conv stall budget i).H
            (runOptimization step conv stall budget i).d)).deflection := by
  obtain ⟨x, n, r, h⟩ := optLoop_result_shape step conv stall i budget 0 startDesign
  have hrun : runOptimization step conv stall budget i = mkResult i x n r := h
  rw [hrun]
  refine ⟨?_, Bool.eq_false_or_eq_true _, rfl, rfl, rfl, rfl⟩
  cases r
  · exact Or.inl rfl
  · exact Or.inr (Or.inl rfl)
  · exact Or.inr (Or.inr rfl)

/-- C9: in test.py, the declared output set of Truss is cost, stress,
buckling, delfection, yet Truss.compute assigns the key deflection, which is
not among the declared outputs, and never assigns the declared key
delfection. -/
theorem claim_C9_deflection_never_written :
    Truss.declaredOutputNames = ["cost", "stress", "buckling", "delfection"] ∧
    "deflection" ∈ Truss.assignedOutputKeys ∧
    "deflection" ∉ Truss.declaredOutputNames ∧
    "delfection" ∉ Truss.assignedOutputKeys := by
  decide

/-- C10: in main.py, stressMax and deflectionMax do not influence compute: two
inputs agreeing on H, d, B, t, E, P, rho produce identical outputs, and the
constraint bounds are the literal constants 100.0, 0.0 and 0.25. -/
theorem claim_C10_limits_noninterference (i j : Inputs) (hH : i.H = j.H)
    (hd : i.d = j.d) (hB : i.B = j.B) (ht : i.t = j.t) (hE : i.E = j.E)
    (hP : i.P = j.P) (hrho : i.rho = j.rho) :
    TrussAnalysis.compute i = TrussAnalysis.compute j ∧
    mainConstraints
      = [("stress", 100.0), ("stress_minus_buckling", 0.0), ("deflection", 0.25)] := by
  refine ⟨?_, rfl⟩
  unfold TrussAnalysis.compute
  rw [hH, hd, hB, ht, hE, hP, hrho]

/-- C10 witness: the theorem applied at the main.py defaults against the same
point with stressMax and deflectionMax changed. -/
theorem claim_C10_witness :
    TrussAnalysis.compute mainDefaultInputs
      = TrussAnalysis.compute
          { mainDefaultInputs with stressMax := 1.0, deflectionMax := 9.0 } ∧
    mainConstraints
      = [("stress", 100.0), ("stress_minus_buckling", 0.0), ("deflection", 0.25)] :=
  claim_C10_limits_noninterference mainDefaultInputs
    { mainDefaultInputs with stressMax := 1.0, deflectionMax := 9.0 }
    rfl rfl rfl rfl rfl rfl rfl

end TrussOpt
